import Mathlib

/-!
Shallow embedding of the librealsense C++ binding header
(include/librealsense/rs.hpp) and verification of its specification.

Modelling conventions:
* Native pointers (rs_frame*, rs_error*, ...) are modelled as `Option Nat`:
  `none` is the null pointer, `some n` a non-null handle identity.
* Native C-ABI entry points (rs_get_frame_bits_per_pixel, rs_clone_frame_ref,
  rs_get_subdevice_option_range, ...) are external to this header; each wrapper
  takes the native function as an explicit oracle parameter, returning the
  values the native call writes into its out-parameters together with the
  contents of the error out-slot.
* `float` values are only copied by this header, never computed with, so the
  carrier is an arbitrary value type with decidable equality (`FloatV`).
* Exceptions are modelled with `Except`: `Except ErrorExn` for errors raised
  through the native error mechanism (`error::handle`), `Except String` for the
  one purely local `std::runtime_error` thrown by `device::get_subdevice`.
-/

namespace rs

/-- Carrier for C `float` values: the header only moves them between the native
out-parameters and struct fields, so any value type with decidable equality is
a faithful carrier. -/
abbrev FloatV := Int

/-- The native error object `rs_error`.  `rs_get_error_message` yields
`message`; `rs_get_failed_function` and `rs_get_failed_args` may return null,
modelled by `Option String`. -/
structure RsError where
  message : String
  failed_function : Option String
  failed_args : Option String
deriving DecidableEq

/-- The thrown exception type `rs::error` (derived from `std::runtime_error`):
the `what()` message plus the two string fields `function` and `args`. -/
structure ErrorExn where
  message : String
  function : String
  args : String
deriving DecidableEq

/-- `error::error(rs_error* err)`: message from `rs_get_error_message(err)`;
`function` and `args` from the corresponding native getters with a null check
substituting the empty `std::string()`.  (`rs_free_error(err)` then releases
the native error object; the release itself carries no data.) -/
def error.ctor (err : RsError) : ErrorExn :=
  { message := err.message
  , function := err.failed_function.getD ""
  , args := err.failed_args.getD "" }

/-- `error::handle(rs_error* e)`: `if (e) throw error(e);` -/
def error.handle (e : Option RsError) : Except ErrorExn Unit :=
  match e with
  | none => Except.ok ()
  | some err => Except.error (error.ctor err)

/-- The `frame` class: owns one native frame reference (`rs_frame* frame_ref`)
or none. -/
structure frame where
  frame_ref : Option Nat
deriving DecidableEq

/-- `frame() : frame_ref(nullptr)` -/
def frame.defaultCtor : frame := frame.mk none

/-- `frame(frame&& other) : frame_ref(other.frame_ref) { other.frame_ref =
nullptr; }` — returns (the constructed frame, `other` after the move). -/
def frame.moveCtor (other : frame) : frame × frame :=
  (frame.mk other.frame_ref, frame.mk none)

/-- `void swap(frame& other) { std::swap(frame_ref, other.frame_ref); }` -/
def frame.swap (self other : frame) : frame × frame :=
  (frame.mk other.frame_ref, frame.mk self.frame_ref)

/-- `~frame() { if (frame_ref) rs_release_frame(frame_ref); }` — returns the
list of native references released by the destructor. -/
def frame.dtor (f : frame) : List Nat :=
  f.frame_ref.toList

/-- `frame& operator=(frame other) { swap(other); return *this; }` — the
by-value parameter is destroyed at the end of the call, releasing the
reference previously held by `*this`.  Returns (the new `*this`, the
references released). -/
def frame.assign (self other : frame) : frame × List Nat :=
  match frame.swap self other with
  | (self1, other1) => (self1, frame.dtor other1)

/-- `G = std::move(F)`: the by-value parameter of `operator=` is
move-constructed from `F`, then assigned into `G`.  Returns
(new `G`, new `F`, references released). -/
def frame.moveAssign (g f : frame) : frame × frame × List Nat :=
  match frame.moveCtor f with
  | (other, f1) =>
    match frame.assign g other with
    | (g1, released) => (g1, f1, released)

/-- `operator bool() const { return frame_ref != nullptr; }` -/
def frame.operatorBool (f : frame) : Bool :=
  f.frame_ref.isSome

/-- `int get_bits_per_pixel() const`: calls `rs_get_frame_bits_per_pixel`
with an error out-slot, then `error::handle(e)`. -/
def frame.get_bits_per_pixel
    (rs_get_frame_bits_per_pixel : Option Nat → Int × Option RsError)
    (f : frame) : Except ErrorExn Int :=
  match rs_get_frame_bits_per_pixel f.frame_ref with
  | (r, e) =>
    match error.handle e with
    | Except.error ex => Except.error ex
    | Except.ok _ => Except.ok r

/-- `int get_bytes_per_pixel() const { return get_bits_per_pixel() / 8; }`
(C++ `int` division truncates toward zero: `Int.tdiv`). -/
def frame.get_bytes_per_pixel
    (rs_get_frame_bits_per_pixel : Option Nat → Int × Option RsError)
    (f : frame) : Except ErrorExn Int :=
  match frame.get_bits_per_pixel rs_get_frame_bits_per_pixel f with
  | Except.error ex => Except.error ex
  | Except.ok b => Except.ok (b.tdiv 8)

/-- `bool try_clone_ref(frame* result) const`: calls `rs_clone_frame_ref`
(oracle: returns the cloned reference or null, plus the error slot), handles
the error, returns false if the clone is null, otherwise `*result = frame(s)`
(an assignment that releases `result`'s previously held reference) and returns
true.  Result: `(returned bool, *result after the call, references released)`. -/
def frame.try_clone_ref
    (rs_clone_frame_ref : Option Nat → Option Nat × Option RsError)
    (f : frame) (result : frame) : Except ErrorExn (Bool × frame × List Nat) :=
  match rs_clone_frame_ref f.frame_ref with
  | (s, e) =>
    match error.handle e with
    | Except.error ex => Except.error ex
    | Except.ok _ =>
      match s with
      | none => Except.ok (false, result, [])
      | some r =>
        match frame.assign result (frame.mk (some r)) with
        | (result1, released) => Except.ok (true, result1, released)

end rs

namespace rs

/-- Modelled from the spec: the native frame queue `rs_frame_queue` (its
implementation is in the native driver, not in this repository slice) is a
bounded FIFO of frame references; `rs_enqueue_frame` appends at the back.
The queue content is the list of enqueued references, oldest first.
(The capacity bound and overflow policy belong to the native layer and are
not needed by any claim.) -/
def rs_enqueue_frame (fref : Option Nat) (q : List (Option Nat)) :
    List (Option Nat) :=
  q ++ [fref]

/-- Modelled from the spec: `rs_poll_for_frame` is non-blocking; when the
queue is non-empty it pops the oldest reference, writes it through the output
pointer and returns 1; when empty it leaves the output pointer untouched and
returns 0.  Result: (queue after, value of the wrapper's local `frame_ref`
variable after the call — initialized to null by the wrapper, return value,
error slot). -/
def rs_poll_for_frame (q : List (Option Nat)) :
    List (Option Nat) × Option Nat × Int × Option RsError :=
  match q with
  | [] => ([], none, 0, none)
  | r :: rest => (rest, r, 1, none)

/-- `void enqueue(frame f) const`: the by-value parameter is move-constructed
from the caller's frame; `rs_enqueue_frame(f.frame_ref, _queue.get())` (noexcept,
no error slot, no error check); then `f.frame_ref = nullptr` so the parameter's
destructor releases nothing.  Result: (queue after, caller's frame after,
references released). -/
def frame_queue.enqueue (q : List (Option Nat)) (callerF : frame) :
    List (Option Nat) × frame × List Nat :=
  match frame.moveCtor callerF with
  | (f, callerF1) =>
    let q1 := rs_enqueue_frame f.frame_ref q
    let f1 : frame := frame.mk none
    (q1, callerF1, frame.dtor f1)

/-- `bool poll_for_frame(frame* f) const`: local `frame_ref` initialized to
null, `rs_poll_for_frame` fills it, `error::handle(e)`, then
`if (res) *f = { frame_ref }; return res > 0;` — the assignment releases the
reference `*f` previously held.  Result: (queue after, returned bool, `*f`
after the call, references released). -/
def frame_queue.poll_for_frame (q : List (Option Nat)) (f : frame) :
    Except ErrorExn (List (Option Nat) × Bool × frame × List Nat) :=
  match rs_poll_for_frame q with
  | (q1, frame_ref, res, e) =>
    match error.handle e with
    | Except.error ex => Except.error ex
    | Except.ok _ =>
      if res ≠ 0 then
        match frame.assign f (frame.mk frame_ref) with
        | (f1, released) => Except.ok (q1, decide (res > 0), f1, released)
      else Except.ok (q1, decide (res > 0), f, [])

end rs

namespace rs

/-- Modelled from the spec: the `rs_subdevice` enumeration lives in the C
header `rs.h`, which is not part of this repository slice.  The spec fixes a
small fixed enumeration of subdevice kinds — color, depth, fisheye, motion —
followed by a sentinel count value; the convenience accessors `color()`,
`depth()`, `fisheye()`, `motion()` of `device` name them in that order and
`begin` starts at `RS_SUBDEVICE_COLOR`, the first enumerator. -/
def RS_SUBDEVICE_COLOR : Nat := 0

/-- Modelled from the spec: second enumerator of `rs_subdevice`. -/
def RS_SUBDEVICE_DEPTH : Nat := 1

/-- Modelled from the spec: third enumerator of `rs_subdevice`. -/
def RS_SUBDEVICE_FISHEYE : Nat := 2

/-- Modelled from the spec: fourth enumerator of `rs_subdevice`. -/
def RS_SUBDEVICE_MOTION : Nat := 3

/-- Modelled from the spec: the sentinel count value of `rs_subdevice`. -/
def RS_SUBDEVICE_COUNT : Nat := 4

/-- `struct option_range { float min; float max; float def; float step; }` —
field declaration order as in the source. -/
structure option_range where
  min : FloatV
  max : FloatV
  «def» : FloatV
  step : FloatV
deriving DecidableEq

/-- The `subdevice` class: a non-owning view `(rs_device* _dev,
rs_subdevice _index)`. -/
structure subdevice where
  _dev : Nat
  _index : Nat
deriving DecidableEq

/-- `option_range get_option_range(rs_option option) const`: calls
`rs_get_subdevice_option_range(_dev, _index, option, &result.min,
&result.max, &result.step, &result.def, &e)` — the oracle returns the four
values written through the four float out-pointers in positional order,
plus the error slot — then `error::handle(e); return result;`. -/
def subdevice.get_option_range
    (rs_get_subdevice_option_range :
      Nat → Nat → Nat → (FloatV × FloatV × FloatV × FloatV) × Option RsError)
    (s : subdevice) (option : Nat) : Except ErrorExn option_range :=
  match rs_get_subdevice_option_range s._dev s._index option with
  | ((v1, v2, v3, v4), e) =>
    let result : option_range := { min := v1, max := v2, step := v3, «def» := v4 }
    match error.handle e with
    | Except.error ex => Except.error ex
    | Except.ok _ => Except.ok result

/-- The `device` class: `std::vector<std::shared_ptr<subdevice>> _subdevices`,
one slot per subdevice kind, null for unsupported kinds.  (The shared device
handle `_dev` itself is not needed by any claim about `device`; the handle
value stored inside each `subdevice` wrapper carries it.) -/
structure device where
  _subdevices : List (Option subdevice)
deriving DecidableEq

/-- The loop body of the `device` constructor, run for kinds `0 .. n-1` in
ascending order: probe each kind with `rs_is_subdevice_supported` (the oracle
returns the flag and the error slot), `error::handle(e)` after each probe —
the first failing probe aborts construction — and fill slot `i` with a new
`subdevice(_dev.get(), s)` when supported, null otherwise. -/
def device.ctorLoop (dev : Nat)
    (rs_is_subdevice_supported : Nat → Bool × Option RsError) :
    Nat → Except ErrorExn (List (Option subdevice))
  | 0 => Except.ok []
  | n + 1 =>
    match device.ctorLoop dev rs_is_subdevice_supported n with
    | Except.error ex => Except.error ex
    | Except.ok acc =>
      match rs_is_subdevice_supported n with
      | (is_supported, e) =>
        match error.handle e with
        | Except.error ex => Except.error ex
        | Except.ok _ =>
          Except.ok (acc ++
            [if is_supported then some (subdevice.mk dev n) else none])

/-- `device::device(std::shared_ptr<rs_device> dev)`: resizes `_subdevices`
to `RS_SUBDEVICE_COUNT` and fills it by probing every kind in ascending
order. -/
def device.ctor (dev : Nat)
    (rs_is_subdevice_supported : Nat → Bool × Option RsError) :
    Except ErrorExn device :=
  match device.ctorLoop dev rs_is_subdevice_supported RS_SUBDEVICE_COUNT with
  | Except.error ex => Except.error ex
  | Except.ok slots => Except.ok (device.mk slots)

/-- The subdevice table produced by a successful construction from an
error-free support probe `p`: slot `i` holds `subdevice(dev, i)` exactly when
`p i` is true (shown equal to `device.ctor` by `device.ctor_probeOk`). -/
def deviceOfProbe (dev : Nat) (p : Nat → Bool) : device :=
  device.mk ((List.range RS_SUBDEVICE_COUNT).map
    (fun i => if p i then some (subdevice.mk dev i) else none))

/-- `subdevice& get_subdevice(rs_subdevice sub)`: `if (sub <
_subdevices.size() && _subdevices[sub].get()) return *_subdevices[sub];
throw std::runtime_error("Requested subdevice is not supported!");` — a
purely local check: no native oracle parameter, and the thrown
`std::runtime_error` is a plain string, not an `ErrorExn` built by
`error::handle`. -/
def device.get_subdevice (d : device) (sub : Nat) : Except String subdevice :=
  if h : sub < d._subdevices.length then
    match d._subdevices.get ⟨sub, h⟩ with
    | some s => Except.ok s
    | none => Except.error "Requested subdevice is not supported!"
  else Except.error "Requested subdevice is not supported!"

/-- `bool supports(rs_subdevice sub) const { return sub < _subdevices.size()
&& _subdevices[sub].get(); }` (the short-circuit `&&` guards the indexing;
`getD _ none` renders the guarded access). -/
def device.supports (d : device) (sub : Nat) : Bool :=
  decide (sub < d._subdevices.length) && (d._subdevices.getD sub none).isSome

/-- The `subdevice_iterator` class: `rs_subdevice _idx; device _dev;`. -/
structure subdevice_iterator where
  _idx : Nat
  _dev : device
deriving DecidableEq

/-- The do-while loop of `operator++`: `do { _idx = _idx + 1; } while (_idx
!= RS_SUBDEVICE_COUNT && !_dev.supports(_idx));` after the mandatory first
increment.  The loop's own termination measure — it stops no later than
`_idx = RS_SUBDEVICE_COUNT`, since a constructed device supports no kind at
or beyond the sentinel — bounds the iteration count by `RS_SUBDEVICE_COUNT`,
which is used here as structural fuel.  (Started at an index beyond the
sentinel — unreachable from `begin`/`end` iteration — the C++ loop would not
terminate; the fuel cuts that divergence off.) -/
def subdevice_iterator.incLoop (d : device) : Nat → Nat → Nat
  | i, 0 => i
  | i, fuel + 1 =>
    if i ≠ RS_SUBDEVICE_COUNT ∧ ¬(device.supports d i = true) then
      subdevice_iterator.incLoop d (i + 1) fuel
    else i

/-- `subdevice_iterator& operator++()`. -/
def subdevice_iterator.inc (it : subdevice_iterator) : subdevice_iterator :=
  subdevice_iterator.mk
    (subdevice_iterator.incLoop it._dev (it._idx + 1) RS_SUBDEVICE_COUNT)
    it._dev

/-- `inline subdevice_iterator begin(device dev) { return { dev,
RS_SUBDEVICE_COLOR }; }` -/
def «begin» (dev : device) : subdevice_iterator :=
  subdevice_iterator.mk RS_SUBDEVICE_COLOR dev

/-- `inline subdevice_iterator end(device dev) { return { dev,
RS_SUBDEVICE_COUNT }; }` -/
def «end» (dev : device) : subdevice_iterator :=
  subdevice_iterator.mk RS_SUBDEVICE_COUNT dev

/-- The indices at which `for (auto it = begin(dev); it != end(dev); ++it)`
dereferences `*it` (each dereference requests `get_subdevice(_idx)`): record
`_idx`, advance with `operator++`, stop when the iterator equals `end`,
i.e. when `_idx = RS_SUBDEVICE_COUNT`.  The fuel `RS_SUBDEVICE_COUNT + 1`
bounds the visit count: indices strictly increase and stay at most the
sentinel. -/
def visitLoop (d : device) : Nat → Nat → List Nat
  | _, 0 => []
  | i, fuel + 1 =>
    if i ≠ RS_SUBDEVICE_COUNT then
      i :: visitLoop d
        (subdevice_iterator.incLoop d (i + 1) RS_SUBDEVICE_COUNT) fuel
    else []

/-- The full visit sequence of a `begin`/`end` iteration over `d`. -/
def iterVisits (d : device) : List Nat :=
  visitLoop d RS_SUBDEVICE_COLOR (RS_SUBDEVICE_COUNT + 1)

end rs

namespace rs

/-- A successful, error-free support probe `p` constructs exactly the table
`deviceOfProbe`: slot `i` is `subdevice(dev, i)` when `p i`, null
otherwise. -/
theorem device.ctor_probeOk (dev : Nat) (p : Nat → Bool) :
    device.ctor dev (fun i => (p i, none)) = Except.ok (deviceOfProbe dev p) :=
  rfl

/-- Supports on a probe-constructed table reduces to the probe itself,
guarded by the range check. -/
theorem device.supports_deviceOfProbe (dev : Nat) (p : Nat → Bool)
    (i : Nat) :
    device.supports (deviceOfProbe dev p) i =
      (decide (i < RS_SUBDEVICE_COUNT) && p i) := by
  rcases i with _ | _ | _ | _ | i
  · cases h : p 0 <;>
      simp [device.supports, deviceOfProbe, RS_SUBDEVICE_COUNT, h,
        List.range_succ]
  · cases h : p 1 <;>
      simp [device.supports, deviceOfProbe, RS_SUBDEVICE_COUNT, h,
        List.range_succ]
  · cases h : p 2 <;>
      simp [device.supports, deviceOfProbe, RS_SUBDEVICE_COUNT, h,
        List.range_succ]
  · cases h : p 3 <;>
      simp [device.supports, deviceOfProbe, RS_SUBDEVICE_COUNT, h,
        List.range_succ]
  · simp [device.supports, deviceOfProbe, RS_SUBDEVICE_COUNT,
      List.range_succ, List.getD]

/-- C1 counterexample: the claim fails as stated.  On the device whose
probe supports only the depth kind, the `begin`/`end` iteration visits the
kind sequence `[COLOR, DEPTH]` — `begin` starts at `RS_SUBDEVICE_COLOR`
without skipping unsupported kinds — while the set of supported kinds in
ascending order is `[DEPTH]`; kind `COLOR` is visited although unsupported
(so its dereference would throw). -/
theorem C1_iter_counterexample :
    device.ctor 0 (fun i => (decide (i = 1), none)) =
      Except.ok (deviceOfProbe 0 (fun i => decide (i = 1))) ∧
    iterVisits (deviceOfProbe 0 (fun i => decide (i = 1))) = [0, 1] ∧
    (List.range RS_SUBDEVICE_COUNT).filter
        (fun i => device.supports (deviceOfProbe 0 (fun j => decide (j = 1))) i)
      = [1] ∧
    device.supports (deviceOfProbe 0 (fun i => decide (i = 1))) 0 = false := by
  refine ⟨rfl, ?_, ?_, ?_⟩ <;> decide

/-- C1 amended: on every device constructed by an error-free support probe
that reports the first enumeration kind (`RS_SUBDEVICE_COLOR`) as supported,
the `begin`/`end` iteration visits exactly the set of supported subdevice
kinds in ascending enumeration order, and it terminates: advancing `begin`
once per visited kind reaches `end`. -/
theorem C1_iter_amended (dev : Nat) (p : Nat → Bool) (d : device)
    (h : device.ctor dev (fun i => (p i, none)) = Except.ok d)
    (h0 : p RS_SUBDEVICE_COLOR = true) :
    iterVisits d =
      (List.range RS_SUBDEVICE_COUNT).filter (fun i => device.supports d i) ∧
    Nat.iterate subdevice_iterator.inc (iterVisits d).length («begin» d) =
      «end» d := by
  rw [device.ctor_probeOk] at h
  injection h with h
  subst h
  have h0' : p 0 = true := h0
  cases h1 : p 1 <;> cases h2 : p 2 <;> cases h3 : p 3 <;>
    simp [iterVisits, visitLoop, subdevice_iterator.incLoop,
      subdevice_iterator.inc, «begin», «end», Function.iterate_succ,
      Function.iterate_zero, device.supports_deviceOfProbe, h0', h1, h2, h3,
      RS_SUBDEVICE_COUNT, RS_SUBDEVICE_COLOR, List.range_succ]

/-- C1 amended, witness: a fully supported device is visited at exactly the
kinds 0, 1, 2, 3 and the iterator reaches `end` in four steps. -/
theorem C1_iter_amended_witness :
    iterVisits (deviceOfProbe 5 (fun _ => true)) =
      (List.range RS_SUBDEVICE_COUNT).filter
        (fun i => device.supports (deviceOfProbe 5 (fun _ => true)) i) ∧
    Nat.iterate subdevice_iterator.inc
        ((iterVisits (deviceOfProbe 5 (fun _ => true))).length)
        («begin» (deviceOfProbe 5 (fun _ => true))) =
      «end» (deviceOfProbe 5 (fun _ => true)) :=
  C1_iter_amended 5 (fun _ => true) (deviceOfProbe 5 (fun _ => true)) rfl rfl

/-- C3: on a device constructed by an error-free support probe `p`,
`get_subdevice(sub)` throws the plain local "not supported"
`std::runtime_error` exactly when `sub` is out of range of the fixed
subdevice table or the construction-time probe reported the kind absent, and
for every kind reported present it returns the subdevice wrapper stored for
that kind; the operation consults no native oracle. -/
theorem C3_get_subdevice (dev : Nat) (p : Nat → Bool) (sub : Nat) (d : device)
    (h : device.ctor dev (fun i => (p i, none)) = Except.ok d) :
    device.get_subdevice d sub =
      if sub < RS_SUBDEVICE_COUNT ∧ p sub = true then
        Except.ok (subdevice.mk dev sub)
      else Except.error "Requested subdevice is not supported!" := by
  rw [device.ctor_probeOk] at h
  injection h with h
  subst h
  rcases sub with _ | _ | _ | _ | s
  · cases h0 : p 0 <;>
      simp [device.get_subdevice, deviceOfProbe, RS_SUBDEVICE_COUNT, h0,
        List.range_succ]
  · cases h1 : p 1 <;>
      simp [device.get_subdevice, deviceOfProbe, RS_SUBDEVICE_COUNT, h1,
        List.range_succ]
  · cases h2 : p 2 <;>
      simp [device.get_subdevice, deviceOfProbe, RS_SUBDEVICE_COUNT, h2,
        List.range_succ]
  · cases h3 : p 3 <;>
      simp [device.get_subdevice, deviceOfProbe, RS_SUBDEVICE_COUNT, h3,
        List.range_succ]
  · have hnl : ¬(s + 1 + 1 + 1 + 1 < 4) := by omega
    simp [device.get_subdevice, deviceOfProbe, RS_SUBDEVICE_COUNT,
      List.range_succ, hnl]

/-- C3 witness: concrete instantiation — a device whose probe supports only
the depth kind returns the stored wrapper for depth. -/
theorem C3_get_subdevice_witness :
    device.get_subdevice (deviceOfProbe 7 (fun i => decide (i = 1))) 1 =
      Except.ok (subdevice.mk 7 1) :=
  C3_get_subdevice 7 (fun i => decide (i = 1)) 1
    (deviceOfProbe 7 (fun i => decide (i = 1))) rfl

/-- C10: for every device state and every subdevice kind value — including
values at or beyond the sentinel count — `supports` is a total boolean
function with no native-oracle parameter, and `get_subdevice` succeeds
exactly when `supports` answers true. -/
theorem C10_supports_get_subdevice_agree (d : device) (sub : Nat) :
    (device.get_subdevice d sub).isOk = device.supports d sub := by
  unfold device.get_subdevice device.supports
  by_cases h : sub < d._subdevices.length
  · rcases hg : d._subdevices.get ⟨sub, h⟩ with _ | s <;>
      rw [List.get_eq_getElem] at hg <;>
      simp [h, hg, List.getD_eq_getElem?_getD, List.getElem?_eq_getElem h,
        Except.isOk, Except.toBool]
  · simp [h, Except.isOk, Except.toBool, List.getD_eq_getElem?_getD,
      List.getElem?_eq_none (Nat.le_of_not_lt h)]

/-- C4: `get_option_range` passes `(&result.min, &result.max, &result.step,
&result.def)` to the native call positionally; when the native call writes
the values `(a, b, c, dd)` through the four output pointers in that order
and reports no error, the returned `option_range` has `min = a`, `max = b`,
`step = c`, `def = dd`. -/
theorem C4_get_option_range_order (dv idx opt : Nat)
    (a b c dd : FloatV) :
    subdevice.get_option_range (fun _ _ _ => ((a, b, c, dd), none))
        (subdevice.mk dv idx) opt =
      Except.ok { min := a, max := b, step := c, «def» := dd } :=
  rfl

/-- C2: `error::handle` is a no-op on a null error handle; on a non-null
handle it throws an `error` whose message equals the native message exactly
and whose failing-function and failing-args fields substitute the empty
string when the native getters return null.  The second conjunct states the
general field wiring, the third the fully null instance. -/
theorem C2_error_handle (msg : String) (f a : Option String) :
    error.handle none = Except.ok () ∧
    error.handle (some (RsError.mk msg f a)) =
      Except.error (ErrorExn.mk msg (f.getD "") (a.getD "")) ∧
    error.handle (some (RsError.mk msg none none)) =
      Except.error (ErrorExn.mk msg "" "") :=
  ⟨rfl, rfl, rfl⟩

/-- C5: a default-constructed frame converts to false; a frame constructed
from a non-null native reference converts to true; after `G = std::move(F)`,
`F` converts to false and `G` holds the reference `F` held before the move. -/
theorem C5_frame_bool_move (r : Nat) (g f : frame) :
    frame.operatorBool frame.defaultCtor = false ∧
    frame.operatorBool (frame.mk (some r)) = true ∧
    frame.operatorBool (frame.moveAssign g f).2.1 = false ∧
    (frame.moveAssign g f).1.frame_ref = f.frame_ref :=
  ⟨rfl, rfl, rfl, rfl⟩

/-- C8: reference-ownership conservation of every frame operation — the
destructor releases a held reference exactly once and an absent reference
zero times; move construction transfers the reference without releasing;
assignment hands the incoming reference to the target and releases the
target's old reference exactly once; swap merely exchanges; `try_clone_ref`
on the thrown-error path releases nothing and on success releases exactly the
result slot's old reference while the source keeps its own; `enqueue`
transfers the reference into the queue and releases nothing. -/
theorem C8_frame_release_once (r : Nat) (g f result : frame)
    (q : List (Option Nat)) (s : Option Nat) (err : RsError) :
    frame.dtor frame.defaultCtor = [] ∧
    frame.dtor (frame.mk (some r)) = [r] ∧
    (frame.moveCtor f).1.frame_ref = f.frame_ref ∧
    (frame.moveCtor f).2.frame_ref = none ∧
    frame.swap g f = (frame.mk f.frame_ref, frame.mk g.frame_ref) ∧
    frame.assign g f = (frame.mk f.frame_ref, g.frame_ref.toList) ∧
    frame.try_clone_ref (fun _ => (s, some err)) f result =
      Except.error (error.ctor err) ∧
    frame.try_clone_ref (fun _ => (none, none)) f result =
      Except.ok (false, result, []) ∧
    frame.try_clone_ref (fun _ => (some r, none)) f result =
      Except.ok (true, frame.mk (some r), result.frame_ref.toList) ∧
    frame_queue.enqueue q f = (q ++ [f.frame_ref], frame.mk none, []) :=
  ⟨rfl, rfl, rfl, rfl, rfl, rfl, rfl, rfl, rfl, rfl⟩

/-- C6: `frame_queue::enqueue` transfers ownership of the caller's frame's
native reference into the queue — afterwards the caller's frame is empty and
releases nothing — and `enqueue` has no error slot and cannot throw (its
model is a total function, not an `Except`). -/
theorem C6_enqueue_transfer (q : List (Option Nat)) (F : frame) :
    frame_queue.enqueue q F = (q ++ [F.frame_ref], frame.mk none, []) ∧
    frame.operatorBool (frame_queue.enqueue q F).2.1 = false :=
  ⟨rfl, rfl⟩

/-- C7: `poll_for_frame` on an empty queue returns false, leaves the output
frame unchanged and releases nothing; on a non-empty queue it returns true,
pops and assigns the oldest enqueued reference through the output parameter
(releasing the reference the output frame previously held). -/
theorem C7_poll_for_frame (f : frame) (r : Option Nat)
    (rest : List (Option Nat)) :
    frame_queue.poll_for_frame [] f = Except.ok ([], false, f, []) ∧
    frame_queue.poll_for_frame (r :: rest) f =
      Except.ok (rest, true, frame.mk r, f.frame_ref.toList) :=
  ⟨rfl, rfl⟩

/-- C9: `get_bytes_per_pixel` equals `get_bits_per_pixel` divided by 8 under
C++ integer (truncating) division, is computed from the single
bits-per-pixel native query (its only native dependency), propagates that
query's error unchanged, and evaluates to 1, 2, 3 bytes at the
representative depths 8, 16, 24. -/
theorem C9_bytes_per_pixel (b : Int) (f : frame) (err : RsError) :
    frame.get_bytes_per_pixel (fun _ => (b, none)) f = Except.ok (b.tdiv 8) ∧
    frame.get_bytes_per_pixel (fun _ => (b, some err)) f =
      Except.error (error.ctor err) ∧
    frame.get_bytes_per_pixel (fun _ => (8, none)) f = Except.ok 1 ∧
    frame.get_bytes_per_pixel (fun _ => (16, none)) f = Except.ok 2 ∧
    frame.get_bytes_per_pixel (fun _ => (24, none)) f = Except.ok 3 :=
  ⟨rfl, rfl, rfl, rfl, rfl⟩

end rs
